import Mathlib

/-!
Shallow embedding of the tenant lifecycle core of the odoo-saas-platform
repository: the worker job handlers (`provision_tenant`, `delete_tenant`,
`backup_tenant`, `restore_tenant` from `workers/jobs/tenant_jobs.py`), the
provisioning backend (`create_tenant_database`, `drop_tenant_database` from
`shared/database.py`), and the admin suspend/resume endpoints
(`admin/app/api/tenants.py`), together with proofs of the lifecycle
properties stated in the specification.

Modelling conventions:
* The tenant record store (Postgres via SQLAlchemy) is a `SysState` value:
  lists of tenant rows, backup rows, audit-log rows, plus the set of
  externally provisioned tenant databases and the archive files on disk.
* Each `with session_scope()` block commits atomically: either all of its
  staged mutations are applied, or (when the commit raises) none are.
  Where a claim depends on a commit failing, the environment record carries
  an explicit flag for that session's commit.
* External effects (database creation/drop connections, `pg_dump`,
  `pg_restore`) are driven by environment records giving the outcome the
  outside world produces (exit codes, durations, produced file sizes), and
  every external invocation is appended to a call trace so that
  "the handler never invoked X" is a statable property.
* Python strings are Lean `String`s; `str(e)[:500]` is `pyTake 500`
  (first 500 characters); Python `None` is `Option.none`; timestamps are
  abstract values supplied by the environment.
-/

/-- Lifecycle states of a tenant, from `shared/models.py` (`TenantState`). -/
inductive TenantState where
  | creating
  | active
  | suspended
  | deleting
  | deleted
  | error
  deriving DecidableEq, Repr

/-- The string value of a state, as stored in the `state` column
(`TenantState.X.value` in the source). -/
def TenantState.val : TenantState → String
  | .creating => "creating"
  | .active => "active"
  | .suspended => "suspended"
  | .deleting => "deleting"
  | .deleted => "deleted"
  | .error => "error"

/-- Backup statuses, from `shared/models.py` (`BackupStatus`). -/
inductive BackupStatus where
  | pending
  | in_progress
  | completed
  | failed
  deriving DecidableEq, Repr

/-- Audit-log action kinds used by the lifecycle code
(`shared/models.py`, `AuditAction`). -/
inductive AuditAction where
  | create
  | update
  | delete
  | suspend
  | resume
  | backup
  | restore
  deriving DecidableEq, Repr

/-- A tenant row: the columns of `Tenant` that the lifecycle code reads or
writes. `dbName = ""` models a NULL `db_name` (Python falsiness of `None`). -/
structure Tenant where
  id : Nat
  dbName : String
  state : TenantState
  stateMessage : Option String
  suspendedAt : Option Nat
  lastBackupAt : Option Nat
  deriving DecidableEq, Repr

/-- A backup row: the columns of `Backup` that the lifecycle code touches. -/
structure Backup where
  id : Nat
  tenantId : Nat
  status : BackupStatus
  filePath : Option String
  fileSizeBytes : Nat
  errorMessage : Option String
  startedAt : Option Nat
  completedAt : Option Nat
  deriving DecidableEq, Repr

/-- An audit-log row (`AuditLog`), with the JSON `old_values` / `new_values`
dictionaries modelled as key/value lists. -/
structure AuditLog where
  actorEmail : String
  action : AuditAction
  resourceType : String
  resourceId : String
  oldValues : List (String × String)
  newValues : List (String × String)
  deriving DecidableEq, Repr

/-- One invocation of an external collaborator, recorded so that
non-invocation properties can be stated. -/
inductive ExtCall where
  | createDb (name : String)
  | dropDb (name : String)
  | pgDump (dbName file : String)
  | pgRestore (dbName file : String)
  deriving DecidableEq, Repr

/-- The whole observable world: the record store (tenants, backups, audit
log), the set of provisioned tenant databases, and the archive files on
disk (path and size), plus the trace of external calls made so far. -/
structure SysState where
  tenants : List Tenant
  backups : List Backup
  audits : List AuditLog
  dbs : List String
  files : List (String × Nat)
  trace : List ExtCall
  deriving DecidableEq, Repr

/-- `session.query(Tenant).filter(Tenant.id == tenant_id).first()`. -/
def findTenant (s : SysState) (tid : Nat) : Option Tenant :=
  s.tenants.find? (fun t => t.id == tid)

/-- `session.query(Backup).filter(Backup.id == backup_id).first()`. -/
def findBackup (s : SysState) (bid : Nat) : Option Backup :=
  s.backups.find? (fun b => b.id == bid)

/-- Commit of a session that mutated the tenant row with id `tid` via `f`. -/
def updateTenant (s : SysState) (tid : Nat) (f : Tenant → Tenant) : SysState :=
  { s with tenants := s.tenants.map (fun t => if t.id == tid then f t else t) }

/-- Commit of a session that mutated the backup row with id `bid` via `f`. -/
def updateBackup (s : SysState) (bid : Nat) (f : Backup → Backup) : SysState :=
  { s with backups := s.backups.map (fun b => if b.id == bid then f b else b) }

/-- `session.add(audit_log)` committed by the surrounding session. -/
def addAudit (s : SysState) (a : AuditLog) : SysState :=
  { s with audits := s.audits ++ [a] }

/-- Record one external invocation in the call trace. -/
def addTrace (s : SysState) (c : ExtCall) : SysState :=
  { s with trace := s.trace ++ [c] }

/-- A new archive file appearing on disk (path and size). -/
def addFile (s : SysState) (f : String × Nat) : SysState :=
  { s with files := f :: s.files }

/-- Replace the set of provisioned tenant databases. -/
def setDbs (s : SysState) (d : List String) : SysState :=
  { s with dbs := d }

/-- Python string slicing `msg[:n]`: the first `n` characters. -/
def pyTake (n : Nat) (msg : String) : String :=
  String.mk (msg.data.take n)

/-- The dictionary returned by a job handler:
`{'success': ..., 'error': ..., 'message': ...}` (absent keys are `none`;
the success payloads such as `tenant_id` are omitted, they are copies of
the arguments). -/
structure JobResult where
  success : Bool
  error : Option String
  message : Option String
  deriving DecidableEq, Repr

/-- `create_tenant_database` (`shared/database.py` lines 166-197): on any
connection/DDL exception it logs and returns `False` (modelled by
`ok = false`); otherwise, if the database already exists it returns `True`
without modification, and if not it creates it and returns `True`.
The attempted call is always recorded in the trace. -/
def create_tenant_database (ok : Bool) (s : SysState) (name : String) :
    Bool × SysState :=
  let s := addTrace s (ExtCall.createDb name)
  if !ok then
    (false, s)
  else if name ∈ s.dbs then
    (true, s)
  else
    (true, setDbs s (name :: s.dbs))

/-- `drop_tenant_database` (`shared/database.py` lines 200-230): on any
exception it returns `False`; otherwise it terminates other connections and
issues `DROP DATABASE IF EXISTS`, so an absent database is still success. -/
def drop_tenant_database (ok : Bool) (s : SysState) (name : String) :
    Bool × SysState :=
  let s := addTrace s (ExtCall.dropDb name)
  if !ok then
    (false, s)
  else
    (true, setDbs s (s.dbs.filter (fun d => d ≠ name)))

/-- Environment of one run of `provision_tenant`: the outcome of the
external database creation, and whether each writing session's commit
succeeds.  `commitErr` is the text of the exception a failing commit
raises. -/
structure ProvisionEnv where
  createOk : Bool
  createFailCommitOk : Bool
  finalCommitOk : Bool
  handlerCommitOk : Bool
  commitErr : String
  nowStr : String
  deriving DecidableEq, Repr

/-- The `except Exception` handler of `provision_tenant` (lines 78-91):
tries to move the tenant to ERROR with the truncated exception text, itself
swallowing a second failure, and returns a failed job result. -/
def provisionErrorHandler (env : ProvisionEnv) (s : SysState) (tid : Nat) :
    JobResult × SysState :=
  let s :=
    if env.handlerCommitOk then
      updateTenant s tid (fun t =>
        { t with state := .error, stateMessage := some (pyTake 500 env.commitErr) })
    else s
  ({ success := false, error := some env.commitErr, message := none }, s)

/-- `provision_tenant` (`workers/jobs/tenant_jobs.py` lines 19-91). -/
def provision_tenant (env : ProvisionEnv) (s : SysState) (tid : Nat) :
    JobResult × SysState :=
  match findTenant s tid with
  | none =>
      ({ success := false, error := some "Tenant not found", message := none }, s)
  | some t =>
      if t.state ≠ TenantState.creating then
        ({ success := false, error := some ("Invalid state: " ++ t.state.val),
           message := none }, s)
      else
        let dbName := t.dbName
        let (ok, s1) := create_tenant_database env.createOk s dbName
        if !ok then
          if env.createFailCommitOk then
            let s2 := updateTenant s1 tid (fun t =>
              { t with state := .error,
                       stateMessage := some "Failed to create database" })
            ({ success := false, error := some "Database creation failed",
               message := none }, s2)
          else
            provisionErrorHandler env s1 tid
        else
          if env.finalCommitOk then
            let s2 :=
              match findTenant s1 tid with
              | some _ =>
                  let s2 := updateTenant s1 tid (fun t =>
                    { t with state := .active, stateMessage := none })
                  addAudit s2
                    { actorEmail := "system", action := .create,
                      resourceType := "tenant", resourceId := toString tid,
                      oldValues := [],
                      newValues := [("state", "active"), ("db_name", dbName),
                                    ("provisioned_at", env.nowStr)] }
              | none => s1
            ({ success := true, error := none, message := none }, s2)
          else
            provisionErrorHandler env s1 tid

/-- Environment of one run of `delete_tenant`: the outcome of the external
database drop and the deletion timestamp. -/
structure DeleteEnv where
  dropOk : Bool
  nowStr : String
  deriving DecidableEq, Repr

/-- `delete_tenant` (`workers/jobs/tenant_jobs.py` lines 94-147).  The
return value of `drop_tenant_database` is not inspected. -/
def delete_tenant (env : DeleteEnv) (s : SysState) (tid : Nat) :
    JobResult × SysState :=
  match findTenant s tid with
  | none =>
      ({ success := false, error := some "Tenant not found", message := none }, s)
  | some t =>
      if t.state = TenantState.deleted then
        ({ success := true, error := none, message := some "Already deleted" }, s)
      else
        let dbName := t.dbName
        let s1 :=
          if dbName ≠ "" then (drop_tenant_database env.dropOk s dbName).2 else s
        let s2 :=
          match findTenant s1 tid with
          | some _ =>
              let s2 := updateTenant s1 tid (fun t =>
                { t with state := .deleted,
                         stateMessage := some ("Deleted at " ++ env.nowStr) })
              addAudit s2
                { actorEmail := "system", action := .delete,
                  resourceType := "tenant", resourceId := toString tid,
                  oldValues := [("db_name", dbName)],
                  newValues := [("state", "deleted")] }
          | none => s1
        ({ success := true, error := none, message := none }, s2)

/-- Hard timeout passed to the external dump/restore processes, in seconds
(`timeout=3600` in both `subprocess.run` calls). -/
def externalTimeoutSecs : Nat := 3600

/-- Environment of one run of `backup_tenant`: how the external `pg_dump`
behaves (wall time, exit code, diagnostic text, size of the archive it
writes on success), the path components, and the clock. -/
structure BackupEnv where
  dumpDuration : Nat
  dumpExitCode : Nat
  dumpStderrText : String
  dumpSize : Nat
  backupDir : String
  timestamp : String
  now : Nat
  deriving DecidableEq, Repr

/-- The archive path `f"{backup_dir}/{db_name}_{timestamp}.sql"`. -/
def backupFilePath (env : BackupEnv) (dbName : String) : String :=
  env.backupDir ++ "/" ++ dbName ++ "_" ++ env.timestamp ++ ".sql"

/-- The failure path of `backup_tenant` (lines 259-273): record FAILED with
the truncated error text on the backup row, if one was given, and return a
failed job result.  The tenant row is not touched. -/
def backupFailurePath (s : SysState) (backupId : Option Nat) (msg : String) :
    JobResult × SysState :=
  let s1 :=
    match backupId with
    | some bid =>
        updateBackup s bid (fun b =>
          { b with status := .failed, errorMessage := some (pyTake 500 msg) })
    | none => s
  ({ success := false, error := some msg, message := none }, s1)

/-- `backup_tenant` (`workers/jobs/tenant_jobs.py` lines 150-273). -/
def backup_tenant (env : BackupEnv) (s : SysState) (tid : Nat)
    (backupId : Option Nat) : JobResult × SysState :=
  match findTenant s tid with
  | none =>
      ({ success := false, error := some "Tenant not found", message := none }, s)
  | some t =>
      if t.state ≠ TenantState.active then
        ({ success := false, error := some ("Tenant not active: " ++ t.state.val),
           message := none }, s)
      else
        let dbName := t.dbName
        let s1 :=
          match backupId with
          | some bid =>
              updateBackup s bid (fun b =>
                { b with status := .in_progress, startedAt := some env.now })
          | none => s
        let file := backupFilePath env dbName
        let s2 := addTrace s1 (ExtCall.pgDump dbName file)
        if env.dumpDuration > externalTimeoutSecs then
          backupFailurePath s2 backupId "Backup timed out after 1 hour"
        else if env.dumpExitCode ≠ 0 then
          backupFailurePath s2 backupId ("pg_dump failed: " ++ env.dumpStderrText)
        else
          let s3 := addFile s2 (file, env.dumpSize)
          let fileSize := env.dumpSize
          let s4 :=
            match backupId with
            | some bid =>
                updateBackup s3 bid (fun b =>
                  { b with status := .completed, completedAt := some env.now,
                           filePath := some file, fileSizeBytes := fileSize })
            | none => s3
          let s5 :=
            match findTenant s4 tid with
            | some _ =>
                updateTenant s4 tid (fun t => { t with lastBackupAt := some env.now })
            | none => s4
          let s6 := addAudit s5
            { actorEmail := "system", action := .backup,
              resourceType := "tenant", resourceId := toString tid,
              oldValues := [],
              newValues := [("backup_file", file), ("file_size", toString fileSize)] }
          ({ success := true, error := none, message := none }, s6)

/-- Environment of one run of `restore_tenant`: outcomes of the external
drop/create connections and of `pg_restore`, and the clock. -/
structure RestoreEnv where
  dropOk : Bool
  createOk : Bool
  restoreDuration : Nat
  restoreExitCode : Nat
  nowStr : String
  deriving DecidableEq, Repr

/-- `restore_tenant` (`workers/jobs/tenant_jobs.py` lines 276-362).
A non-zero `pg_restore` exit code is only logged as a warning; the handler
then still marks the tenant ACTIVE.  A timeout raises, is caught by the
outer handler, and returns failure without any state update. -/
def restore_tenant (env : RestoreEnv) (s : SysState) (tid : Nat) (bid : Nat) :
    JobResult × SysState :=
  match findTenant s tid with
  | none =>
      ({ success := false, error := some "Tenant not found", message := none }, s)
  | some t =>
      match findBackup s bid with
      | none =>
          ({ success := false, error := some "Backup not found", message := none }, s)
      | some b =>
          if b.tenantId ≠ t.id then
            ({ success := false,
               error := some "Backup does not belong to this tenant",
               message := none }, s)
          else
            match b.filePath with
            | none =>
                ({ success := false, error := some "Backup file not found",
                   message := none }, s)
            | some file =>
                if file = "" ∨ (s.files.find? (fun f => f.1 == file)).isNone then
                  ({ success := false, error := some "Backup file not found",
                     message := none }, s)
                else
                  let dbName := t.dbName
                  let s1 := (drop_tenant_database env.dropOk s dbName).2
                  let s2 := (create_tenant_database env.createOk s1 dbName).2
                  let s3 := addTrace s2 (ExtCall.pgRestore dbName file)
                  if env.restoreDuration > externalTimeoutSecs then
                    ({ success := false,
                       error := some "Command pg_restore timed out after 3600 seconds",
                       message := none }, s3)
                  else
                    let s4 :=
                      match findTenant s3 tid with
                      | some _ =>
                          updateTenant s3 tid (fun t =>
                            { t with state := .active })
                      | none => s3
                    let s5 := addAudit s4
                      { actorEmail := "system", action := .restore,
                        resourceType := "tenant", resourceId := toString tid,
                        oldValues := [],
                        newValues := [("backup_id", toString bid),
                                      ("restored_at", env.nowStr)] }
                    ({ success := true, error := none, message := none }, s5)

/-- Result of an admin API endpoint: the HTTP status code it answers with. -/
structure ApiResult where
  httpStatus : Nat
  deriving DecidableEq, Repr

/-- Environment of the admin suspend/resume endpoints: the acting user's
email and the clock. -/
structure AdminEnv where
  actorEmail : String
  now : Nat
  deriving DecidableEq, Repr

/-- `suspend_tenant` (`admin/app/api/tenants.py` lines 321-366): only an
ACTIVE tenant may be suspended; on success the state becomes SUSPENDED and
`suspended_at` is set, with an audit entry. -/
def suspend_tenant (env : AdminEnv) (s : SysState) (tid : Nat) :
    ApiResult × SysState :=
  match findTenant s tid with
  | none => ({ httpStatus := 404 }, s)
  | some t =>
      if t.state ≠ TenantState.active then
        ({ httpStatus := 400 }, s)
      else
        let s1 := updateTenant s tid (fun t =>
          { t with state := .suspended, suspendedAt := some env.now })
        let s2 := addAudit s1
          { actorEmail := env.actorEmail, action := .suspend,
            resourceType := "tenant", resourceId := toString tid,
            oldValues := [("state", t.state.val)],
            newValues := [("state", "suspended")] }
        ({ httpStatus := 200 }, s2)

/-- `resume_tenant` (`admin/app/api/tenants.py` lines 369-410): only a
SUSPENDED tenant may be resumed; on success the state becomes ACTIVE and
`suspended_at` is cleared, with an audit entry. -/
def resume_tenant (env : AdminEnv) (s : SysState) (tid : Nat) :
    ApiResult × SysState :=
  match findTenant s tid with
  | none => ({ httpStatus := 404 }, s)
  | some t =>
      if t.state ≠ TenantState.suspended then
        ({ httpStatus := 400 }, s)
      else
        let s1 := updateTenant s tid (fun t =>
          { t with state := .active, suspendedAt := none })
        let s2 := addAudit s1
          { actorEmail := env.actorEmail, action := .resume,
            resourceType := "tenant", resourceId := toString tid,
            oldValues := [("state", t.state.val)],
            newValues := [("state", "active")] }
        ({ httpStatus := 200 }, s2)

/-! ### The spec's suspension invariant, and concrete sample data -/

/-- The data-model invariant stated by the spec: `suspended_at` is non-null
iff the tenant's state is SUSPENDED. -/
def suspInv (t : Tenant) : Prop :=
  t.suspendedAt.isSome ↔ t.state = TenantState.suspended

instance (t : Tenant) : Decidable (suspInv t) := by
  unfold suspInv; infer_instance

/-- The suspension invariant holding for every tenant row of the store. -/
def tenantsInv (s : SysState) : Prop := ∀ t ∈ s.tenants, suspInv t

instance (s : SysState) : Decidable (tenantsInv s) := by
  unfold tenantsInv; infer_instance

/- Sample data used by witness and counterexample theorems.
The `tenCn`/`bakCn`/`sysCn`/`envCn` family belongs to claim Cn. -/

def tenC1 : Tenant :=
  { id := 1, dbName := "odoo_acme_corp", state := .error,
    stateMessage := some "provisioning failed", suspendedAt := none,
    lastBackupAt := none }

def bakC1 : Backup :=
  { id := 7, tenantId := 1, status := .completed,
    filePath := some "/tmp/backups/acme.sql", fileSizeBytes := 1024,
    errorMessage := none, startedAt := some 1, completedAt := some 2 }

def sysC1 : SysState :=
  { tenants := [tenC1], backups := [bakC1], audits := [],
    dbs := ["odoo_acme_corp"], files := [("/tmp/backups/acme.sql", 1024)],
    trace := [] }

def envC1 : RestoreEnv :=
  { dropOk := true, createOk := true, restoreDuration := 10,
    restoreExitCode := 1, nowStr := "t1" }

def tenC2 : Tenant :=
  { id := 1, dbName := "odoo_acme_corp", state := .active, stateMessage := none,
    suspendedAt := none, lastBackupAt := none }

def sysC2 : SysState :=
  { tenants := [tenC2], backups := [], audits := [],
    dbs := ["odoo_acme_corp"], files := [], trace := [] }

def envC2 : ProvisionEnv :=
  { createOk := true, createFailCommitOk := true, finalCommitOk := true,
    handlerCommitOk := true, commitErr := "commit failed", nowStr := "t0" }

def tenC3 : Tenant :=
  { id := 2, dbName := "odoo_beta", state := .suspended, stateMessage := none,
    suspendedAt := some 11, lastBackupAt := none }

def bakC3 : Backup :=
  { id := 5, tenantId := 2, status := .pending, filePath := none,
    fileSizeBytes := 0, errorMessage := none, startedAt := none,
    completedAt := none }

def sysC3 : SysState :=
  { tenants := [tenC3], backups := [bakC3], audits := [],
    dbs := ["odoo_beta"], files := [], trace := [] }

def envC3 : BackupEnv :=
  { dumpDuration := 5, dumpExitCode := 0, dumpStderrText := "",
    dumpSize := 2048, backupDir := "/tmp/backups", timestamp := "20260101",
    now := 100 }

def tenC4 : Tenant :=
  { id := 4, dbName := "odoo_x", state := .suspended, stateMessage := none,
    suspendedAt := some 5, lastBackupAt := none }

def sysC4 : SysState :=
  { tenants := [tenC4], backups := [], audits := [], dbs := ["odoo_x"],
    files := [], trace := [] }

def envC4 : DeleteEnv := { dropOk := true, nowStr := "t4" }

def tenC4b : Tenant :=
  { id := 6, dbName := "odoo_y", state := .active, stateMessage := none,
    suspendedAt := none, lastBackupAt := none }

def sysC4b : SysState :=
  { tenants := [tenC4b], backups := [], audits := [], dbs := ["odoo_y"],
    files := [], trace := [] }

def envC4b : AdminEnv := { actorEmail := "admin@saas.test", now := 55 }

def envC4p : ProvisionEnv :=
  { createOk := true, createFailCommitOk := true, finalCommitOk := true,
    handlerCommitOk := true, commitErr := "commit failed", nowStr := "t9" }

def tenC5 : Tenant :=
  { id := 9, dbName := "odoo_new", state := .creating, stateMessage := none,
    suspendedAt := none, lastBackupAt := none }

def sysC5 : SysState :=
  { tenants := [tenC5], backups := [], audits := [], dbs := [],
    files := [], trace := [] }

def envC5 : ProvisionEnv :=
  { createOk := true, createFailCommitOk := true, finalCommitOk := false,
    handlerCommitOk := true, commitErr := "audit insert failed", nowStr := "t6" }

def envC5b : ProvisionEnv :=
  { createOk := true, createFailCommitOk := true, finalCommitOk := true,
    handlerCommitOk := true, commitErr := "audit insert failed", nowStr := "t6" }

def sysC6 : SysState :=
  { tenants := [], backups := [], audits := [], dbs := ["odoo_other"],
    files := [], trace := [] }

def tenC7 : Tenant :=
  { id := 3, dbName := "odoo_gamma", state := .active, stateMessage := none,
    suspendedAt := none, lastBackupAt := none }

def bakC7 : Backup :=
  { id := 8, tenantId := 3, status := .pending, filePath := none,
    fileSizeBytes := 0, errorMessage := none, startedAt := none,
    completedAt := none }

def sysC7 : SysState :=
  { tenants := [tenC7], backups := [bakC7], audits := [],
    dbs := ["odoo_gamma"], files := [], trace := [] }

def envC7 : BackupEnv :=
  { dumpDuration := 4000, dumpExitCode := 0, dumpStderrText := "",
    dumpSize := 0, backupDir := "/tmp/backups", timestamp := "20260102",
    now := 200 }

def tenC8 : Tenant :=
  { id := 1, dbName := "odoo_acme_corp", state := .active, stateMessage := none,
    suspendedAt := none, lastBackupAt := none }

def bakC8 : Backup :=
  { id := 12, tenantId := 1, status := .pending, filePath := none,
    fileSizeBytes := 0, errorMessage := none, startedAt := none,
    completedAt := none }

def sysC8 : SysState :=
  { tenants := [tenC8], backups := [bakC8], audits := [],
    dbs := ["odoo_acme_corp"], files := [], trace := [] }

def envC8b : BackupEnv :=
  { dumpDuration := 60, dumpExitCode := 0, dumpStderrText := "",
    dumpSize := 4096, backupDir := "/tmp/backups", timestamp := "20260103",
    now := 300 }

def envC8r : RestoreEnv :=
  { dropOk := true, createOk := true, restoreDuration := 90,
    restoreExitCode := 0, nowStr := "t8" }

def tenC9 : Tenant :=
  { id := 3, dbName := "odoo_gone", state := .deleted,
    stateMessage := some "Deleted at t1", suspendedAt := none,
    lastBackupAt := none }

def sysC9 : SysState :=
  { tenants := [tenC9], backups := [], audits := [], dbs := [],
    files := [], trace := [] }

def envC9 : DeleteEnv := { dropOk := true, nowStr := "t2" }

def tenC10 : Tenant :=
  { id := 5, dbName := "odoo_delta", state := .active, stateMessage := none,
    suspendedAt := none, lastBackupAt := none }

def sysC10 : SysState :=
  { tenants := [tenC10], backups := [], audits := [], dbs := ["odoo_delta"],
    files := [], trace := [] }

def envC10 : DeleteEnv := { dropOk := false, nowStr := "t7" }
/-! ### Basic lemmas about the record-store operations -/

theorem pyTake_length_le (n : Nat) (msg : String) : (pyTake n msg).length ≤ n := by
  show (msg.data.take n).length ≤ n
  rw [List.length_take]
  exact Nat.min_le_left _ _

@[simp] theorem updateTenant_backups (s : SysState) (tid : Nat) (f : Tenant → Tenant) :
    (updateTenant s tid f).backups = s.backups := rfl

@[simp] theorem updateTenant_audits (s : SysState) (tid : Nat) (f : Tenant → Tenant) :
    (updateTenant s tid f).audits = s.audits := rfl

@[simp] theorem updateTenant_files (s : SysState) (tid : Nat) (f : Tenant → Tenant) :
    (updateTenant s tid f).files = s.files := rfl

@[simp] theorem updateBackup_tenants (s : SysState) (bid : Nat) (f : Backup → Backup) :
    (updateBackup s bid f).tenants = s.tenants := rfl

@[simp] theorem updateBackup_audits (s : SysState) (bid : Nat) (f : Backup → Backup) :
    (updateBackup s bid f).audits = s.audits := rfl

@[simp] theorem updateBackup_files (s : SysState) (bid : Nat) (f : Backup → Backup) :
    (updateBackup s bid f).files = s.files := rfl

@[simp] theorem addAudit_tenants (s : SysState) (a : AuditLog) :
    (addAudit s a).tenants = s.tenants := rfl

@[simp] theorem addAudit_backups (s : SysState) (a : AuditLog) :
    (addAudit s a).backups = s.backups := rfl

@[simp] theorem addAudit_audits (s : SysState) (a : AuditLog) :
    (addAudit s a).audits = s.audits ++ [a] := rfl

@[simp] theorem addAudit_files (s : SysState) (a : AuditLog) :
    (addAudit s a).files = s.files := rfl

@[simp] theorem addTrace_tenants (s : SysState) (c : ExtCall) :
    (addTrace s c).tenants = s.tenants := rfl

@[simp] theorem addTrace_backups (s : SysState) (c : ExtCall) :
    (addTrace s c).backups = s.backups := rfl

@[simp] theorem addTrace_audits (s : SysState) (c : ExtCall) :
    (addTrace s c).audits = s.audits := rfl

@[simp] theorem addTrace_files (s : SysState) (c : ExtCall) :
    (addTrace s c).files = s.files := rfl

@[simp] theorem addTrace_dbs (s : SysState) (c : ExtCall) :
    (addTrace s c).dbs = s.dbs := rfl

@[simp] theorem addFile_tenants (s : SysState) (f : String × Nat) :
    (addFile s f).tenants = s.tenants := rfl

@[simp] theorem addFile_backups (s : SysState) (f : String × Nat) :
    (addFile s f).backups = s.backups := rfl

@[simp] theorem addFile_audits (s : SysState) (f : String × Nat) :
    (addFile s f).audits = s.audits := rfl

@[simp] theorem addFile_files (s : SysState) (f : String × Nat) :
    (addFile s f).files = f :: s.files := rfl

@[simp] theorem setDbs_tenants (s : SysState) (d : List String) :
    (setDbs s d).tenants = s.tenants := rfl

@[simp] theorem setDbs_backups (s : SysState) (d : List String) :
    (setDbs s d).backups = s.backups := rfl

@[simp] theorem setDbs_audits (s : SysState) (d : List String) :
    (setDbs s d).audits = s.audits := rfl

@[simp] theorem setDbs_files (s : SysState) (d : List String) :
    (setDbs s d).files = s.files := rfl

@[simp] theorem setDbs_dbs (s : SysState) (d : List String) :
    (setDbs s d).dbs = d := rfl

@[simp] theorem create_db_tenants (ok : Bool) (s : SysState) (name : String) :
    (create_tenant_database ok s name).2.tenants = s.tenants := by
  unfold create_tenant_database
  cases ok <;> simp <;> split <;> rfl

@[simp] theorem create_db_backups (ok : Bool) (s : SysState) (name : String) :
    (create_tenant_database ok s name).2.backups = s.backups := by
  unfold create_tenant_database
  cases ok <;> simp <;> split <;> rfl

@[simp] theorem create_db_audits (ok : Bool) (s : SysState) (name : String) :
    (create_tenant_database ok s name).2.audits = s.audits := by
  unfold create_tenant_database
  cases ok <;> simp <;> split <;> rfl

@[simp] theorem create_db_files (ok : Bool) (s : SysState) (name : String) :
    (create_tenant_database ok s name).2.files = s.files := by
  unfold create_tenant_database
  cases ok <;> simp <;> split <;> rfl

@[simp] theorem drop_db_tenants (ok : Bool) (s : SysState) (name : String) :
    (drop_tenant_database ok s name).2.tenants = s.tenants := by
  unfold drop_tenant_database
  cases ok <;> rfl

@[simp] theorem drop_db_backups (ok : Bool) (s : SysState) (name : String) :
    (drop_tenant_database ok s name).2.backups = s.backups := by
  unfold drop_tenant_database
  cases ok <;> rfl

@[simp] theorem drop_db_audits (ok : Bool) (s : SysState) (name : String) :
    (drop_tenant_database ok s name).2.audits = s.audits := by
  unfold drop_tenant_database
  cases ok <;> rfl

@[simp] theorem drop_db_files (ok : Bool) (s : SysState) (name : String) :
    (drop_tenant_database ok s name).2.files = s.files := by
  unfold drop_tenant_database
  cases ok <;> rfl

theorem findTenant_congr {s1 s2 : SysState} (tid : Nat)
    (h : s1.tenants = s2.tenants) : findTenant s1 tid = findTenant s2 tid := by
  unfold findTenant
  rw [h]

theorem findBackup_congr {s1 s2 : SysState} (bid : Nat)
    (h : s1.backups = s2.backups) : findBackup s1 bid = findBackup s2 bid := by
  unfold findBackup
  rw [h]

/-- `find?` over a list in which every element satisfying `p` has been
rewritten by an `p`-preserving `f` finds the image of what it found before. -/
theorem find?_map_ite {α : Type} (p : α → Bool) (f : α → α)
    (hf : ∀ a, p a = true → p (f a) = true) :
    ∀ l : List α,
      (l.map (fun a => if p a then f a else a)).find? p = (l.find? p).map f := by
  intro l
  induction l with
  | nil => rfl
  | cons a l ih =>
      by_cases h : p a = true
      · simp [List.find?, h, hf a h]
      · have h' : p a = false := by simpa using h
        simp [List.find?, h', ih]

theorem findTenant_updateTenant (s : SysState) (tid : Nat) (f : Tenant → Tenant)
    (hf : ∀ t, (f t).id = t.id) :
    findTenant (updateTenant s tid f) tid = (findTenant s tid).map f := by
  unfold findTenant updateTenant
  exact find?_map_ite (fun t => t.id == tid) f
    (fun t h => by simpa [hf t] using h) s.tenants

theorem findBackup_updateBackup (s : SysState) (bid : Nat) (f : Backup → Backup)
    (hf : ∀ b, (f b).id = b.id) :
    findBackup (updateBackup s bid f) bid = (findBackup s bid).map f := by
  unfold findBackup updateBackup
  exact find?_map_ite (fun b => b.id == bid) f
    (fun b h => by simpa [hf b] using h) s.backups

theorem findTenant_id {s : SysState} {tid : Nat} {t : Tenant}
    (h : findTenant s tid = some t) : t.id = tid := by
  have := List.find?_some h
  simpa using this

theorem findTenant_mem {s : SysState} {tid : Nat} {t : Tenant}
    (h : findTenant s tid = some t) : t ∈ s.tenants :=
  List.mem_of_find?_eq_some h

/-- Chained helper: looking a tenant up after the usual
"update the tenant row, then append an audit entry" commit pattern. -/
theorem findTenant_after_update_audit (s : SysState) (tid : Nat)
    (f : Tenant → Tenant) (hf : ∀ t, (f t).id = t.id) (a : AuditLog) :
    findTenant (addAudit (updateTenant s tid f) a) tid =
      (findTenant s tid).map f := by
  rw [findTenant_congr tid (addAudit_tenants (updateTenant s tid f) a),
    findTenant_updateTenant s tid f hf]
/-! ### C2 -/

/-- C2: invoking the provision job on a tenant whose state is not CREATING
(in particular one already ACTIVE) returns an invalid-state rejection and
leaves the whole store untouched — the returned state is exactly the input
state, so no tenant field changes, no audit entry is written, and the call
trace is unchanged, i.e. database creation is never invoked and the
database is never recreated. -/
theorem provision_rejects_non_creating
    (env : ProvisionEnv) (s : SysState) (tid : Nat) (t : Tenant)
    (hfind : findTenant s tid = some t)
    (hstate : t.state ≠ TenantState.creating) :
    provision_tenant env s tid =
      ({ success := false, error := some ("Invalid state: " ++ t.state.val),
         message := none }, s) := by
  unfold provision_tenant
  rw [hfind]
  simp [hstate]

/-- C2 witness: the rejection on a concrete ACTIVE tenant. -/
theorem provision_rejects_non_creating_witness :
    provision_tenant envC2 sysC2 1 =
      ({ success := false, error := some ("Invalid state: " ++ tenC2.state.val),
         message := none }, sysC2) :=
  provision_rejects_non_creating envC2 sysC2 1 tenC2 (by decide) (by decide)

/-! ### C3 -/

/-- C3: invoking the backup job on a tenant whose state is not ACTIVE
(in particular a SUSPENDED one) is rejected with a failure result and the
whole store is returned untouched: no backup row changes status, no dump is
performed (the call trace is unchanged), no audit entry is written. -/
theorem backup_rejects_non_active
    (env : BackupEnv) (s : SysState) (tid : Nat) (backupId : Option Nat)
    (t : Tenant) (hfind : findTenant s tid = some t)
    (hstate : t.state ≠ TenantState.active) :
    backup_tenant env s tid backupId =
      ({ success := false, error := some ("Tenant not active: " ++ t.state.val),
         message := none }, s) := by
  unfold backup_tenant
  rw [hfind]
  simp [hstate]

/-- C3 witness: the rejection on a concrete SUSPENDED tenant, with a
PENDING backup row that stays untouched. -/
theorem backup_rejects_non_active_witness :
    backup_tenant envC3 sysC3 2 (some 5) =
      ({ success := false, error := some ("Tenant not active: " ++ tenC3.state.val),
         message := none }, sysC3) :=
  backup_rejects_non_active envC3 sysC3 2 (some 5) tenC3 (by decide) (by decide)

/-! ### C9 -/

/-- C9: invoking the delete job on a tenant already in state DELETED
returns success carrying only the "Already deleted" no-op marker message,
and returns the store exactly unchanged: no tenant field changes and no new
audit entry is appended. -/
theorem delete_noop_on_deleted
    (env : DeleteEnv) (s : SysState) (tid : Nat) (t : Tenant)
    (hfind : findTenant s tid = some t)
    (hstate : t.state = TenantState.deleted) :
    delete_tenant env s tid =
      ({ success := true, error := none, message := some "Already deleted" }, s) := by
  unfold delete_tenant
  rw [hfind]
  simp [hstate]

/-- C9 witness: the no-op on a concrete already-DELETED tenant. -/
theorem delete_noop_on_deleted_witness :
    delete_tenant envC9 sysC9 3 =
      ({ success := true, error := none, message := some "Already deleted" },
       sysC9) :=
  delete_noop_on_deleted envC9 sysC9 3 tenC9 (by decide) (by decide)

/-! ### C10 -/

/-- C10: on a tenant that is not already DELETED, the delete job ignores
the boolean returned by `drop_tenant_database`: even when the drop fails
(returns `false`), the tenant still ends in state DELETED and the job still
returns success — the tenant is never routed to ERROR by a drop failure. -/
theorem delete_ignores_drop_failure
    (env : DeleteEnv) (s : SysState) (tid : Nat) (t : Tenant)
    (hfind : findTenant s tid = some t)
    (hstate : t.state ≠ TenantState.deleted)
    (hdrop : env.dropOk = false) :
    (drop_tenant_database env.dropOk s t.dbName).1 = false ∧
    (delete_tenant env s tid).1 =
      { success := true, error := none, message := none } ∧
    (findTenant (delete_tenant env s tid).2 tid).map Tenant.state =
      some TenantState.deleted := by
  refine ⟨by simp [drop_tenant_database, hdrop], ?_⟩
  unfold delete_tenant
  rw [hfind]
  simp only [hstate, ite_false, if_false]
  have hts : (if t.dbName ≠ "" then (drop_tenant_database env.dropOk s t.dbName).2
      else s).tenants = s.tenants := by
    split
    · exact drop_db_tenants _ _ _
    · rfl
  have hf1 : findTenant (if t.dbName ≠ "" then
      (drop_tenant_database env.dropOk s t.dbName).2 else s) tid = some t := by
    rw [findTenant_congr tid hts]; exact hfind
  rw [hf1]
  refine ⟨trivial, ?_⟩
  rw [findTenant_after_update_audit _ tid (fun t =>
      { id := t.id, dbName := t.dbName, state := TenantState.deleted,
        stateMessage := some ("Deleted at " ++ env.nowStr), suspendedAt := t.suspendedAt,
        lastBackupAt := t.lastBackupAt }) (fun u => rfl) _, hf1]
  rfl

/-- C10 witness: a concrete ACTIVE tenant whose database drop fails is
still marked DELETED with a success result. -/
theorem delete_ignores_drop_failure_witness :
    (drop_tenant_database envC10.dropOk sysC10 tenC10.dbName).1 = false ∧
    (delete_tenant envC10 sysC10 5).1 =
      { success := true, error := none, message := none } ∧
    (findTenant (delete_tenant envC10 sysC10 5).2 5).map Tenant.state =
      some TenantState.deleted :=
  delete_ignores_drop_failure envC10 sysC10 5 tenC10 (by decide) (by decide)
    (by decide)

/-! ### C6 -/

/-- C6: `create_tenant_database` run without an external exception is
idempotent: it returns success both when the database already exists (then
without modifying the set of databases) and when it does not (then adding
exactly that database); and a second application returns success again and
produces the same set of databases as the single application. -/
theorem createDatabase_idempotent (s : SysState) (name : String) :
    (create_tenant_database true s name).1 = true ∧
    (name ∈ s.dbs → (create_tenant_database true s name).2.dbs = s.dbs) ∧
    (name ∉ s.dbs → (create_tenant_database true s name).2.dbs = name :: s.dbs) ∧
    (create_tenant_database true (create_tenant_database true s name).2 name).1
      = true ∧
    (create_tenant_database true (create_tenant_database true s name).2 name).2.dbs
      = (create_tenant_database true s name).2.dbs := by
  unfold create_tenant_database
  by_cases h : name ∈ s.dbs <;> simp [h]

/-- C6 witness: creating a fresh database twice on a concrete store. -/
theorem createDatabase_idempotent_witness :
    (create_tenant_database true sysC6 "odoo_acme_corp").1 = true ∧
    ("odoo_acme_corp" ∈ sysC6.dbs →
      (create_tenant_database true sysC6 "odoo_acme_corp").2.dbs = sysC6.dbs) ∧
    ("odoo_acme_corp" ∉ sysC6.dbs →
      (create_tenant_database true sysC6 "odoo_acme_corp").2.dbs =
        "odoo_acme_corp" :: sysC6.dbs) ∧
    (create_tenant_database true
      (create_tenant_database true sysC6 "odoo_acme_corp").2 "odoo_acme_corp").1
      = true ∧
    (create_tenant_database true
      (create_tenant_database true sysC6 "odoo_acme_corp").2 "odoo_acme_corp").2.dbs
      = (create_tenant_database true sysC6 "odoo_acme_corp").2.dbs :=
  createDatabase_idempotent sysC6 "odoo_acme_corp"

/-! ### C1 -/

/-- C1: contrary to the claim, when the drop/recreate of the tenant's
database succeeds but the external restore process exits non-zero, the
restore job still reports success and marks the tenant ACTIVE — it does
not leave the tenant in ERROR.  Evaluated on a concrete ERROR tenant with a
valid COMPLETED backup whose archive exists, with `pg_restore` exiting 1. -/
theorem restore_failure_still_marks_active :
    ((restore_tenant envC1 sysC1 1 7).1.success = true) ∧
    ((findTenant (restore_tenant envC1 sysC1 1 7).2 1).map Tenant.state =
      some TenantState.active) := by
  decide

/-! ### C4 -/

/-- C4 counterexample: the suspension invariant (`suspended_at` non-null
iff state SUSPENDED) holds of a concrete store with one SUSPENDED tenant,
yet after the delete lifecycle operation it no longer holds: the tenant is
DELETED while `suspended_at` is still set, because `delete_tenant` never
clears `suspended_at`. -/
theorem delete_breaks_suspension_invariant :
    tenantsInv sysC4 ∧
    ¬ tenantsInv (delete_tenant envC4 sysC4 4).2 ∧
    (findTenant (delete_tenant envC4 sysC4 4).2 4).map
      (fun t => (t.state, t.suspendedAt)) =
      some (TenantState.deleted, some 5) := by
  decide

/-! ### C5 -/

/-- C5 counterexample: the audit entry is written in the same transaction
as the ACTIVE state change, so a failing audit/commit aborts the state
change, contrary to the claim.  On a concrete CREATING tenant whose
database creation succeeds but whose final session commit fails, the job
returns failure, no audit entry exists, and the tenant is in ERROR — the
underlying state change to ACTIVE was not applied. -/
theorem audit_failure_aborts_state_change :
    ((provision_tenant envC5 sysC5 9).1.success = false) ∧
    ((findTenant (provision_tenant envC5 sysC5 9).2 9).map Tenant.state =
      some TenantState.error) ∧
    (provision_tenant envC5 sysC5 9).2.audits = [] := by
  decide

theorem create_db_result_true (s : SysState) (name : String) :
    (create_tenant_database true s name).1 = true := by
  unfold create_tenant_database
  by_cases h : name ∈ s.dbs <;> simp [h]

/-- C5 amended: the audit write is atomic with the state change, not
independent of it.  For a provision run on a CREATING tenant whose external
database creation succeeds: exactly when the final commit succeeds, one
audit entry is appended and the tenant is ACTIVE; when that commit fails,
no audit entry is appended and the state change is lost — the tenant is
moved to ERROR by the exception handler (or left as-is if even that
commit fails) and the job reports failure. -/
theorem provision_audit_atomic_with_state
    (env : ProvisionEnv) (s : SysState) (tid : Nat) (t : Tenant)
    (hfind : findTenant s tid = some t)
    (hstate : t.state = TenantState.creating)
    (hok : env.createOk = true) :
    ((provision_tenant env s tid).2.audits.length =
       s.audits.length + (if env.finalCommitOk then 1 else 0)) ∧
    ((findTenant (provision_tenant env s tid).2 tid).map Tenant.state =
       some (if env.finalCommitOk then TenantState.active
             else if env.handlerCommitOk then TenantState.error else t.state)) ∧
    ((provision_tenant env s tid).1.success = env.finalCommitOk) := by
  unfold provision_tenant
  rw [hfind]
  simp only [hstate, ne_eq, not_true_eq_false, if_false, ite_false]
  rw [hok, create_db_result_true]
  simp only [Bool.not_true, if_false, ite_false, Bool.false_eq_true]
  have hf1 : findTenant (create_tenant_database true s t.dbName).2 tid = some t := by
    rw [findTenant_congr tid (create_db_tenants _ _ _)]
    exact hfind
  by_cases hfin : env.finalCommitOk
  · simp only [hfin, if_true, ite_true]
    rw [hf1]
    refine ⟨?_, ?_, by trivial⟩
    · simp [addAudit_audits, updateTenant_audits, create_db_audits]
    · rw [findTenant_after_update_audit _ tid (fun t =>
        { id := t.id, dbName := t.dbName, state := TenantState.active,
          stateMessage := none, suspendedAt := t.suspendedAt,
          lastBackupAt := t.lastBackupAt }) (fun u => rfl) _, hf1]
      rfl
  · have hfin' : env.finalCommitOk = false := by simpa using hfin
    simp only [hfin', Bool.false_eq_true, if_false, ite_false]
    unfold provisionErrorHandler
    by_cases hh : env.handlerCommitOk
    · simp only [hh, if_true, ite_true]
      refine ⟨?_, ?_, by trivial⟩
      · simp [updateTenant_audits, create_db_audits]
      · rw [findTenant_updateTenant _ tid (fun t =>
          { id := t.id, dbName := t.dbName, state := TenantState.error,
            stateMessage := some (pyTake 500 env.commitErr),
            suspendedAt := t.suspendedAt, lastBackupAt := t.lastBackupAt })
          (fun u => rfl), hf1]
        rfl
    · have hh' : env.handlerCommitOk = false := by simpa using hh
      simp only [hh', Bool.false_eq_true, if_false, ite_false]
      refine ⟨?_, ?_, by trivial⟩
      · simp [create_db_audits]
      · rw [hf1]
        simp [hstate]

/-- C5 amended witness: on a concrete CREATING tenant with a successful
final commit, exactly one audit entry is appended and the tenant is
ACTIVE. -/
theorem provision_audit_atomic_with_state_witness :
    ((provision_tenant envC5b sysC5 9).2.audits.length =
       sysC5.audits.length + (if envC5b.finalCommitOk then 1 else 0)) ∧
    ((findTenant (provision_tenant envC5b sysC5 9).2 9).map Tenant.state =
       some (if envC5b.finalCommitOk then TenantState.active
             else if envC5b.handlerCommitOk then TenantState.error
             else tenC5.state)) ∧
    ((provision_tenant envC5b sysC5 9).1.success = envC5b.finalCommitOk) :=
  provision_audit_atomic_with_state envC5b sysC5 9 tenC5 (by decide) (by decide)
    (by decide)

/-- Shape of the failure path of `backup_tenant` when a backup row id was
supplied: failed result, FAILED status with truncated message, tenants
untouched. -/
theorem backupFailurePath_spec (s : SysState) (bid : Nat) (msg : String)
    (b : Backup) (hb : findBackup s bid = some b) :
    (backupFailurePath s (some bid) msg).1 =
      { success := false, error := some msg, message := none } ∧
    findBackup (backupFailurePath s (some bid) msg).2 bid =
      some { b with status := .failed, errorMessage := some (pyTake 500 msg) } ∧
    (backupFailurePath s (some bid) msg).2.tenants = s.tenants := by
  unfold backupFailurePath
  refine ⟨rfl, ?_, rfl⟩
  rw [findBackup_updateBackup _ bid (fun b =>
    { b with status := .failed, errorMessage := some (pyTake 500 msg) })
    (fun u => rfl), hb]
  rfl

/-! ### C7 -/

/-- C7: whenever the external dump fails — the hard 3600s timeout is
exceeded or `pg_dump` exits non-zero — the backup job returns failure, the
backup row ends in status FAILED carrying the error message truncated to at
most 500 characters, and the tenant row (in particular its `state` field)
is completely unchanged. -/
theorem backup_failure_records_failed_truncated
    (env : BackupEnv) (s : SysState) (tid bid : Nat) (t : Tenant) (b : Backup)
    (hfind : findTenant s tid = some t)
    (hstate : t.state = TenantState.active)
    (hb : findBackup s bid = some b)
    (hfail : env.dumpDuration > externalTimeoutSecs ∨ env.dumpExitCode ≠ 0) :
    ((backup_tenant env s tid (some bid)).1.success = false) ∧
    (∃ msg, (backup_tenant env s tid (some bid)).1.error = some msg ∧
      findBackup (backup_tenant env s tid (some bid)).2 bid =
        some { b with status := .failed, startedAt := some env.now,
                      errorMessage := some (pyTake 500 msg) } ∧
      (pyTake 500 msg).length ≤ 500) ∧
    findTenant (backup_tenant env s tid (some bid)).2 tid = some t := by
  unfold backup_tenant
  rw [hfind]
  simp only [hstate, ne_eq, not_true_eq_false, if_false, ite_false]
  have hb2 : findBackup (addTrace (updateBackup s bid (fun b =>
      { b with status := .in_progress, startedAt := some env.now }))
      (ExtCall.pgDump t.dbName (backupFilePath env t.dbName))) bid =
      some { b with status := .in_progress, startedAt := some env.now } := by
    rw [findBackup_congr bid (addTrace_backups _ _),
      findBackup_updateBackup _ bid (fun b =>
        { b with status := .in_progress, startedAt := some env.now })
      (fun u => rfl), hb]
    rfl
  have hts : (addTrace (updateBackup s bid (fun b =>
      { b with status := .in_progress, startedAt := some env.now }))
      (ExtCall.pgDump t.dbName (backupFilePath env t.dbName))).tenants =
      s.tenants := rfl
  by_cases hdur : env.dumpDuration > externalTimeoutSecs
  · simp only [hdur, if_true, ite_true]
    obtain ⟨h1, h2, h3⟩ :=
      backupFailurePath_spec _ bid "Backup timed out after 1 hour" _ hb2
    refine ⟨by rw [h1], ⟨"Backup timed out after 1 hour", by rw [h1], by rw [h2],
      pyTake_length_le _ _⟩, ?_⟩
    rw [findTenant_congr tid (h3.trans hts)]
    exact hfind
  · have hexit : env.dumpExitCode ≠ 0 := by
      rcases hfail with h | h
      · exact absurd h hdur
      · exact h
    simp only [hdur, hexit, ne_eq, not_false_eq_true, if_true, ite_true,
      if_false, ite_false]
    obtain ⟨h1, h2, h3⟩ := backupFailurePath_spec _ bid
      ("pg_dump failed: " ++ env.dumpStderrText) _ hb2
    refine ⟨by rw [h1], ⟨"pg_dump failed: " ++ env.dumpStderrText, by rw [h1],
      by rw [h2], pyTake_length_le _ _⟩, ?_⟩
    rw [findTenant_congr tid (h3.trans hts)]
    exact hfind

/-- C7 witness: a concrete dump exceeding the 3600s timeout on an ACTIVE
tenant with a PENDING backup row. -/
theorem backup_failure_records_failed_truncated_witness :
    ((backup_tenant envC7 sysC7 3 (some 8)).1.success = false) ∧
    (∃ msg, (backup_tenant envC7 sysC7 3 (some 8)).1.error = some msg ∧
      findBackup (backup_tenant envC7 sysC7 3 (some 8)).2 8 =
        some { bakC7 with status := .failed, startedAt := some envC7.now,
                          errorMessage := some (pyTake 500 msg) } ∧
      (pyTake 500 msg).length ≤ 500) ∧
    findTenant (backup_tenant envC7 sysC7 3 (some 8)).2 3 = some tenC7 :=
  backup_failure_records_failed_truncated envC7 sysC7 3 8 tenC7 bakC7
    (by decide) (by decide) (by decide) (by decide)

theorem tenantsInv_congr {s1 s2 : SysState} (h : s1.tenants = s2.tenants) :
    tenantsInv s2 → tenantsInv s1 := by
  intro hi x hx
  rw [h] at hx
  exact hi x hx

theorem tenantsInv_updateTenant (s : SysState) (tid : Nat) (f : Tenant → Tenant)
    (h : tenantsInv s) (hf : ∀ u, suspInv u → suspInv (f u)) :
    tenantsInv (updateTenant s tid f) := by
  intro x hx
  rw [show (updateTenant s tid f).tenants =
    s.tenants.map (fun u => if u.id == tid then f u else u) from rfl,
    List.mem_map] at hx
  obtain ⟨u, hu, hx⟩ := hx
  by_cases hid : (u.id == tid) = true
  · rw [← hx, if_pos hid]
    exact hf u (h u hu)
  · rw [← hx, if_neg hid]
    exact h u hu

theorem find?_id_unique {l : List Tenant} {tid : Nat} {t : Tenant}
    (hfind : l.find? (fun u => u.id == tid) = some t)
    (hnd : (l.map Tenant.id).Nodup) :
    ∀ u ∈ l, u.id = tid → u = t := by
  induction l with
  | nil => simp at hfind
  | cons a l ih =>
      rw [List.map_cons, List.nodup_cons] at hnd
      obtain ⟨hna, hnd⟩ := hnd
      intro u hu hid
      by_cases ha : (a.id == tid) = true
      · simp only [List.find?_cons, ha] at hfind
        have hat : a = t := by injection hfind
        rcases List.mem_cons.mp hu with rfl | hu
        · exact hat
        · exfalso
          apply hna
          have : a.id = tid := by simpa using ha
          rw [this, ← hid]
          exact List.mem_map_of_mem Tenant.id hu
      · have ha' : (a.id == tid) = false := by simpa using ha
        simp only [List.find?_cons, ha'] at hfind
        rcases List.mem_cons.mp hu with rfl | hu
        · exfalso
          have hbt : (u.id == tid) = true := by simpa using hid
          rw [hbt] at ha'
          exact absurd ha' (by decide)
        · exact ih hfind hnd u hu hid

theorem tenantsInv_updateTenant_found {s : SysState} {tid : Nat} {t : Tenant}
    (f : Tenant → Tenant) (hfind : findTenant s tid = some t)
    (hnd : (s.tenants.map Tenant.id).Nodup)
    (h : tenantsInv s) (hft : suspInv (f t)) :
    tenantsInv (updateTenant s tid f) := by
  intro x hx
  rw [show (updateTenant s tid f).tenants =
    s.tenants.map (fun u => if u.id == tid then f u else u) from rfl,
    List.mem_map] at hx
  obtain ⟨u, hu, hx⟩ := hx
  by_cases hid : (u.id == tid) = true
  · have hut : u = t :=
      find?_id_unique hfind hnd u hu (by simpa using hid)
    rw [← hx, if_pos hid, hut]
    exact hft
  · rw [← hx, if_neg hid]
    exact h u hu

theorem create_db_result_false (s : SysState) (name : String) :
    (create_tenant_database false s name).1 = false := rfl

theorem provisionErrorHandler_tenantsInv
    (env : ProvisionEnv) (s : SysState) (tid : Nat) (t : Tenant)
    (hfind : findTenant s tid = some t)
    (hnd : (s.tenants.map Tenant.id).Nodup)
    (h : tenantsInv s) (hsusp : t.suspendedAt = none) :
    tenantsInv (provisionErrorHandler env s tid).2 := by
  unfold provisionErrorHandler
  by_cases hh : env.handlerCommitOk
  · simp only [hh, if_true, ite_true]
    exact tenantsInv_updateTenant_found _ hfind hnd h (by simp [suspInv, hsusp])
  · have hh' : env.handlerCommitOk = false := by simpa using hh
    simp only [hh', Bool.false_eq_true, if_false, ite_false]
    exact h

/-! ### C4 amended theorem -/

/-- C4 amended: suspend and resume maintain the suspension invariant
(`suspended_at` non-null iff SUSPENDED) — suspend on an ACTIVE tenant
yields SUSPENDED with `suspended_at` set and resume yields ACTIVE with
`suspended_at` null — and provision also preserves the invariant (given
unique tenant ids, as the primary key guarantees); but delete and restore
do NOT preserve it, since neither clears `suspended_at`
(see the counterexample theorem). -/
theorem suspension_invariant_amended
    (aenv : AdminEnv) (penv : ProvisionEnv) (s : SysState) (tid : Nat) :
    (tenantsInv s → tenantsInv (suspend_tenant aenv s tid).2) ∧
    (tenantsInv s → tenantsInv (resume_tenant aenv s tid).2) ∧
    (tenantsInv s → (s.tenants.map Tenant.id).Nodup →
      tenantsInv (provision_tenant penv s tid).2) ∧
    (∀ t, findTenant s tid = some t → t.state = TenantState.active →
      findTenant (suspend_tenant aenv s tid).2 tid =
        some { t with state := .suspended, suspendedAt := some aenv.now }) ∧
    (∀ t, findTenant s tid = some t → t.state = TenantState.suspended →
      findTenant (resume_tenant aenv s tid).2 tid =
        some { t with state := .active, suspendedAt := none }) := by
  refine ⟨?_, ?_, ?_, ?_, ?_⟩
  · intro h
    unfold suspend_tenant
    cases hf : findTenant s tid with
    | none => exact h
    | some t =>
        by_cases hst : t.state = TenantState.active
        · simp only [hst, ne_eq, not_true_eq_false, if_false, ite_false]
          exact tenantsInv_congr (addAudit_tenants _ _)
            (tenantsInv_updateTenant s tid _ h (fun u _ => by simp [suspInv]))
        · simp only [hst, ne_eq, not_false_eq_true, if_true, ite_true]
          exact h
  · intro h
    unfold resume_tenant
    cases hf : findTenant s tid with
    | none => exact h
    | some t =>
        by_cases hst : t.state = TenantState.suspended
        · simp only [hst, ne_eq, not_true_eq_false, if_false, ite_false]
          exact tenantsInv_congr (addAudit_tenants _ _)
            (tenantsInv_updateTenant s tid _ h (fun u _ => by simp [suspInv]))
        · simp only [hst, ne_eq, not_false_eq_true, if_true, ite_true]
          exact h
  · intro h hnd
    unfold provision_tenant
    cases hf : findTenant s tid with
    | none => exact h
    | some t =>
        by_cases hst : t.state = TenantState.creating
        · simp only [hst, ne_eq, not_true_eq_false, if_false, ite_false]
          have hsusp : t.suspendedAt = none := by
            have := h t (findTenant_mem hf)
            rw [suspInv, hst] at this
            cases hv : t.suspendedAt with
            | none => rfl
            | some v =>
                exfalso
                have : TenantState.creating = TenantState.suspended := by
                  apply this.mp
                  rw [hv]
                  rfl
                exact absurd this (by decide)
          have hts : (create_tenant_database penv.createOk s t.dbName).2.tenants
              = s.tenants := create_db_tenants _ _ _
          have hfind1 : findTenant
              (create_tenant_database penv.createOk s t.dbName).2 tid = some t := by
            rw [findTenant_congr tid hts]
            exact hf
          have hnd1 : (((create_tenant_database penv.createOk s t.dbName).2).tenants.map
              Tenant.id).Nodup := by
            rw [hts]
            exact hnd
          have h1 : tenantsInv (create_tenant_database penv.createOk s t.dbName).2 :=
            tenantsInv_congr hts h
          by_cases hco : penv.createOk = true
          · rw [hco, create_db_result_true]
            simp only [Bool.not_true, Bool.false_eq_true, if_false, ite_false]
            rw [hco] at hfind1 hnd1 h1 hts
            by_cases hfin : penv.finalCommitOk
            · simp only [hfin, if_true, ite_true]
              rw [hfind1]
              exact tenantsInv_congr (addAudit_tenants _ _)
                (tenantsInv_updateTenant_found _ hfind1 hnd1 h1
                  (by simp [suspInv, hsusp]))
            · have hfin' : penv.finalCommitOk = false := by simpa using hfin
              simp only [hfin', Bool.false_eq_true, if_false, ite_false]
              exact provisionErrorHandler_tenantsInv penv _ tid t hfind1 hnd1 h1 hsusp
          · have hco' : penv.createOk = false := by simpa using hco
            rw [hco', create_db_result_false]
            simp only [Bool.not_false, if_true, ite_true]
            rw [hco'] at hfind1 hnd1 h1
            by_cases hcc : penv.createFailCommitOk
            · simp only [hcc, if_true, ite_true]
              exact tenantsInv_updateTenant_found _ hfind1 hnd1 h1
                (by simp [suspInv, hsusp])
            · have hcc' : penv.createFailCommitOk = false := by simpa using hcc
              simp only [hcc', Bool.false_eq_true, if_false, ite_false]
              exact provisionErrorHandler_tenantsInv penv _ tid t hfind1 hnd1 h1 hsusp
        · simp only [hst, ne_eq, not_false_eq_true, if_true, ite_true]
          exact h
  · intro t hf hst
    unfold suspend_tenant
    rw [hf]
    simp only [hst, ne_eq, not_true_eq_false, if_false, ite_false]
    rw [findTenant_after_update_audit _ tid (fun t =>
      { t with state := .suspended, suspendedAt := some aenv.now })
      (fun u => rfl) _, hf]
    rfl
  · intro t hf hst
    unfold resume_tenant
    rw [hf]
    simp only [hst, ne_eq, not_true_eq_false, if_false, ite_false]
    rw [findTenant_after_update_audit _ tid (fun t =>
      { t with state := .active, suspendedAt := none })
      (fun u => rfl) _, hf]
    rfl

/-- C4 amended witness: suspending a concrete ACTIVE tenant preserves the
invariant and sets `suspended_at`. -/
theorem suspension_invariant_amended_witness :
    tenantsInv (suspend_tenant envC4b sysC4b 6).2 ∧
    findTenant (suspend_tenant envC4b sysC4b 6).2 6 =
      some { tenC4b with state := .suspended, suspendedAt := some envC4b.now } :=
  ⟨(suspension_invariant_amended envC4b envC4p sysC4b 6).1 (by decide),
   (suspension_invariant_amended envC4b envC4p sysC4b 6).2.2.2.1 tenC4b
     (by decide) (by decide)⟩

/-! ### C8 -/

/-- The timestamped archive path is never the empty string. -/
theorem backupFilePath_ne_empty (env : BackupEnv) (dbName : String) :
    backupFilePath env dbName ≠ "" := by
  simp [backupFilePath, String.ext_iff]

/-- Shape of a fully successful backup run: success result, backup row
COMPLETED with the archive path and size, `last_backup_at` stamped on the
tenant, the archive file on disk, and one audit entry appended. -/
theorem backup_tenant_success
    (env : BackupEnv) (s : SysState) (tid bid : Nat) (t : Tenant) (b : Backup)
    (hfind : findTenant s tid = some t)
    (hstate : t.state = TenantState.active)
    (hb : findBackup s bid = some b)
    (hexit : env.dumpExitCode = 0)
    (hdur : ¬ env.dumpDuration > externalTimeoutSecs) :
    (backup_tenant env s tid (some bid)).1 =
      { success := true, error := none, message := none } ∧
    findBackup (backup_tenant env s tid (some bid)).2 bid =
      some { b with status := .completed, startedAt := some env.now,
                    completedAt := some env.now,
                    filePath := some (backupFilePath env t.dbName),
                    fileSizeBytes := env.dumpSize } ∧
    findTenant (backup_tenant env s tid (some bid)).2 tid =
      some { t with lastBackupAt := some env.now } ∧
    (backup_tenant env s tid (some bid)).2.files =
      (backupFilePath env t.dbName, env.dumpSize) :: s.files ∧
    (backup_tenant env s tid (some bid)).2.audits = s.audits ++
      [{ actorEmail := "system", action := .backup, resourceType := "tenant",
         resourceId := toString tid, oldValues := [],
         newValues := [("backup_file", backupFilePath env t.dbName),
                       ("file_size", toString env.dumpSize)] }] := by
  unfold backup_tenant
  rw [hfind]
  simp only [hstate, ne_eq, not_true_eq_false, if_false, ite_false, hdur,
    hexit, not_false_eq_true, if_true, ite_true]
  have hf4 : findTenant (updateBackup (addFile (addTrace (updateBackup s bid (fun b => { b with status := .in_progress, startedAt := some env.now })) (ExtCall.pgDump t.dbName (backupFilePath env t.dbName))) (backupFilePath env t.dbName, env.dumpSize)) bid (fun b => { b with status := .completed, completedAt := some env.now, filePath := some (backupFilePath env t.dbName), fileSizeBytes := env.dumpSize })) tid = some t := by
    rw [findTenant_congr tid rfl]
    exact hfind
  rw [hf4]
  refine ⟨by trivial, ?_, ?_, by trivial, by trivial⟩
  · rw [findBackup_congr bid (addAudit_backups _ _),
      findBackup_congr bid (updateTenant_backups _ _ _),
      findBackup_updateBackup _ bid (fun b => { b with status := .completed, completedAt := some env.now, filePath := some (backupFilePath env t.dbName), fileSizeBytes := env.dumpSize }) (fun u => rfl),
      findBackup_congr bid (addFile_backups _ _),
      findBackup_congr bid (addTrace_backups _ _),
      findBackup_updateBackup _ bid (fun b => { b with status := .in_progress, startedAt := some env.now }) (fun u => rfl), hb]
    rfl
  · rw [findTenant_after_update_audit _ tid
      (fun t => { t with lastBackupAt := some env.now }) (fun u => rfl) _, hf4]
    simp [hstate]

/-- Shape of a fully successful restore run: success result, tenant moved
to ACTIVE, and one audit entry referencing the backup id appended. -/
theorem restore_tenant_success
    (env : RestoreEnv) (s : SysState) (tid bid : Nat) (t : Tenant) (b : Backup)
    (file : String)
    (hfindT : findTenant s tid = some t)
    (hfindB : findBackup s bid = some b)
    (hbt : b.tenantId = t.id)
    (hfp : b.filePath = some file)
    (hne : ¬ (file = "" ∨ (s.files.find? (fun f => f.1 == file)).isNone))
    (hdur : ¬ env.restoreDuration > externalTimeoutSecs) :
    (restore_tenant env s tid bid).1 =
      { success := true, error := none, message := none } ∧
    findTenant (restore_tenant env s tid bid).2 tid =
      some { t with state := .active } ∧
    (restore_tenant env s tid bid).2.audits = s.audits ++
      [{ actorEmail := "system", action := .restore, resourceType := "tenant",
         resourceId := toString tid, oldValues := [],
         newValues := [("backup_id", toString bid),
                       ("restored_at", env.nowStr)] }] := by
  unfold restore_tenant
  rw [hfindT, hfindB]
  simp only [hbt, ne_eq, not_true_eq_false, if_false, ite_false]
  rw [hfp]
  simp only [hne, if_false, ite_false, hdur]
  have h1 : (addTrace (create_tenant_database env.createOk
      (drop_tenant_database env.dropOk s t.dbName).2 t.dbName).2
      (ExtCall.pgRestore t.dbName file)).tenants = s.tenants := by
    rw [addTrace_tenants, create_db_tenants, drop_db_tenants]
  have hf3 : findTenant (addTrace (create_tenant_database env.createOk
      (drop_tenant_database env.dropOk s t.dbName).2 t.dbName).2
      (ExtCall.pgRestore t.dbName file)) tid = some t := by
    rw [findTenant_congr tid h1]
    exact hfindT
  rw [hf3]
  refine ⟨by trivial, ?_, ?_⟩
  · rw [findTenant_after_update_audit _ tid
      (fun t => { t with state := TenantState.active }) (fun u => rfl) _, hf3]
    rfl
  · rw [addAudit_audits, updateTenant_audits, addTrace_audits, create_db_audits,
      drop_db_audits]

/-- C8: backup→restore round trip.  For an ACTIVE tenant with a PENDING
backup row, a successful backup (dump exits 0 within the 3600s budget,
producing a non-empty archive) leaves the backup COMPLETED with file size
greater than zero, and a subsequent successful restore from that backup
leaves the tenant in state ACTIVE with an audit entry referencing the
backup's id. -/
theorem backup_restore_roundtrip
    (env1 : BackupEnv) (env2 : RestoreEnv) (s : SysState) (tid bid : Nat)
    (t : Tenant) (b : Backup)
    (hfind : findTenant s tid = some t)
    (hstate : t.state = TenantState.active)
    (hb : findBackup s bid = some b)
    (hbt : b.tenantId = tid)
    (hbs : b.status = BackupStatus.pending)
    (hexit : env1.dumpExitCode = 0)
    (hdur1 : ¬ env1.dumpDuration > externalTimeoutSecs)
    (hsize : 0 < env1.dumpSize)
    (hdur2 : ¬ env2.restoreDuration > externalTimeoutSecs) :
    (backup_tenant env1 s tid (some bid)).1.success = true ∧
    (∃ b1, findBackup (backup_tenant env1 s tid (some bid)).2 bid = some b1 ∧
      b1.status = BackupStatus.completed ∧ 0 < b1.fileSizeBytes) ∧
    (restore_tenant env2 (backup_tenant env1 s tid (some bid)).2 tid bid).1.success
      = true ∧
    (findTenant
      (restore_tenant env2 (backup_tenant env1 s tid (some bid)).2 tid bid).2
      tid).map Tenant.state = some TenantState.active ∧
    (∃ a ∈ (restore_tenant env2 (backup_tenant env1 s tid (some bid)).2
        tid bid).2.audits,
      a.action = AuditAction.restore ∧
      ("backup_id", toString bid) ∈ a.newValues) := by
  obtain ⟨hr1, hb1, ht1, hfiles1, haud1⟩ :=
    backup_tenant_success env1 s tid bid t b hfind hstate hb hexit hdur1
  have htid : t.id = tid := findTenant_id hfind
  have hne : ¬ (backupFilePath env1 t.dbName = "" ∨
      ((backup_tenant env1 s tid (some bid)).2.files.find?
        (fun f => f.1 == backupFilePath env1 t.dbName)).isNone) := by
    intro h
    rcases h with h | h
    · exact backupFilePath_ne_empty env1 t.dbName h
    · rw [hfiles1] at h
      simp [List.find?_cons] at h
  obtain ⟨hr2, ht2, haud2⟩ :=
    restore_tenant_success env2 _ tid bid _ _ (backupFilePath env1 t.dbName)
      ht1 hb1 (by simp [hbt, htid]) rfl hne hdur2
  refine ⟨by rw [hr1], ⟨_, hb1, rfl, hsize⟩, by rw [hr2], ?_, ?_⟩
  · rw [ht2]
    rfl
  · refine ⟨{ actorEmail := "system", action := .restore, resourceType := "tenant", resourceId := toString tid, oldValues := [], newValues := [("backup_id", toString bid), ("restored_at", env2.nowStr)] }, ?_, rfl, ?_⟩
    · rw [haud2]
      exact List.mem_append_right _ (List.mem_singleton_self _)
    · exact List.mem_cons_self _ _

/-- C8 witness: the round trip on a concrete ACTIVE tenant
`odoo_acme_corp` and PENDING backup row. -/
theorem backup_restore_roundtrip_witness :
    (backup_tenant envC8b sysC8 1 (some 12)).1.success = true ∧
    (∃ b1, findBackup (backup_tenant envC8b sysC8 1 (some 12)).2 12 = some b1 ∧
      b1.status = BackupStatus.completed ∧ 0 < b1.fileSizeBytes) ∧
    (restore_tenant envC8r (backup_tenant envC8b sysC8 1 (some 12)).2 1 12).1.success
      = true ∧
    (findTenant
      (restore_tenant envC8r (backup_tenant envC8b sysC8 1 (some 12)).2 1 12).2
      1).map Tenant.state = some TenantState.active ∧
    (∃ a ∈ (restore_tenant envC8r (backup_tenant envC8b sysC8 1 (some 12)).2
        1 12).2.audits,
      a.action = AuditAction.restore ∧
      ("backup_id", toString 12) ∈ a.newValues) :=
  backup_restore_roundtrip envC8b envC8r sysC8 1 12 tenC8 bakC8 (by decide)
    (by decide) (by decide) (by decide) (by decide) (by decide) (by decide)
    (by decide) (by decide)
